import Mathlib

/-!
Shallow embedding of the indicator engine of
`src/Stock_Analysis/streamlit_app.py`: the rolling moving averages
(`MA_Short`, `MA_Long`), the RSI computation (`calculate_rsi`), the
inline trend / RSI-status classification expressions, and the Start
Analysis handler's empty-data branch.

Numeric model: a pandas float64 cell is modelled as an exact rational
extended with the IEEE special values NaN, +infinity and -infinity.
Zero is unsigned in this model: in the source the sign of a zero only
influences the sign of an infinite quotient `rs = gain / loss`, and the
final formula `100 - (100 / (1 + rs))` maps both infinities to `100`,
so no observable value depends on that sign.  A missing value (the
warm-up rows that pandas marks NaN) is the same `nan` value, exactly as
in pandas.
-/

/-- A pandas float64 cell: NaN, +infinity, -infinity, or a finite value
(modelled as an exact rational). -/
inductive FV where
  | nan : FV
  | pinf : FV
  | ninf : FV
  | num : ℚ → FV
  deriving DecidableEq, Repr

/-- IEEE negation (zero is unsigned in this model). -/
def FV.neg : FV → FV
  | .nan => .nan
  | .pinf => .ninf
  | .ninf => .pinf
  | .num q => .num (-q)

/-- IEEE addition on extended rationals. -/
def FV.add : FV → FV → FV
  | .nan, _ => .nan
  | _, .nan => .nan
  | .pinf, .ninf => .nan
  | .ninf, .pinf => .nan
  | .pinf, _ => .pinf
  | _, .pinf => .pinf
  | .ninf, _ => .ninf
  | _, .ninf => .ninf
  | .num a, .num b => .num (a + b)

/-- IEEE subtraction, as addition of the negation. -/
def FV.sub (a b : FV) : FV := FV.add a (FV.neg b)

/-- IEEE division on extended rationals.  With zero unsigned, a nonzero
finite value divided by zero gives the infinity matching the numerator's
sign, and `0 / 0` gives NaN. -/
def FV.div : FV → FV → FV
  | .nan, _ => .nan
  | _, .nan => .nan
  | .pinf, .pinf => .nan
  | .pinf, .ninf => .nan
  | .ninf, .pinf => .nan
  | .ninf, .ninf => .nan
  | .pinf, .num q => if q < 0 then .ninf else .pinf
  | .ninf, .num q => if q < 0 then .pinf else .ninf
  | .num _, .pinf => .num 0
  | .num _, .ninf => .num 0
  | .num a, .num b =>
      if b = 0 then (if 0 < a then .pinf else if a < 0 then .ninf else .nan)
      else .num (a / b)

/-- IEEE strict less-than: any comparison involving NaN is false. -/
def FV.lt : FV → FV → Bool
  | .nan, _ => false
  | _, .nan => false
  | .ninf, .ninf => false
  | .ninf, _ => true
  | _, .ninf => false
  | .pinf, _ => false
  | _, .pinf => true
  | .num a, .num b => decide (a < b)

/-- One fetched table, the `Date`, `Close`, `Volume` columns of
`data_new` (dates as epoch days, volumes as plain integers). -/
structure DataFrame where
  date : List Int
  close : List FV
  volume : List Int
  deriving DecidableEq, Repr

/-- Models `Series.diff()`: the first entry is NaN, every later entry is
`x[i] - x[i-1]`. -/
def diff (xs : List FV) : List FV :=
  (List.range xs.length).map fun i =>
    if i = 0 then FV.nan else FV.sub (xs.getD i FV.nan) (xs.getD (i - 1) FV.nan)

/-- Models `Series.where(cond, other)`: keep the entries satisfying
`cond`, replace every other entry with `other`.  A NaN entry never
satisfies an order comparison, so it is replaced. -/
def seriesWhere (xs : List FV) (cond : FV → Bool) (other : FV) : List FV :=
  xs.map fun x => if cond x then x else other

/-- Models `Series.rolling(window=p).mean()` with the default
`min_periods = p`: NaN while the trailing window is not yet full,
otherwise the mean of the trailing `p` entries (NaN whenever one of
them is NaN, because `FV.add` propagates NaN). -/
def rolling_mean (xs : List FV) (p : ℕ) : List FV :=
  (List.range xs.length).map fun i =>
    if i + 1 < p then FV.nan
    else FV.div (((xs.drop (i + 1 - p)).take p).foldr FV.add (FV.num 0)) (FV.num p)

/-- The gain series of `calculate_rsi`:
`(delta.where(delta > 0, 0)).rolling(window=periods).mean()`. -/
def rsi_gain (close : List FV) (periods : ℕ) : List FV :=
  rolling_mean (seriesWhere (diff close) (fun d => FV.lt (FV.num 0) d) (FV.num 0)) periods

/-- The loss series of `calculate_rsi`:
`(-delta.where(delta < 0, 0)).rolling(window=periods).mean()`. -/
def rsi_loss (close : List FV) (periods : ℕ) : List FV :=
  rolling_mean ((seriesWhere (diff close) (fun d => FV.lt d (FV.num 0)) (FV.num 0)).map FV.neg)
    periods

/-- Models `calculate_rsi(data, periods=14)` from the source: diff the
`Close` column, average the clipped gains and losses over the trailing
window, take `rs = gain / loss` elementwise, and return
`100 - (100 / (1 + rs))`. -/
def calculate_rsi (data : DataFrame) (periods : ℕ := 14) : List FV :=
  let gain := rsi_gain data.close periods
  let loss := rsi_loss data.close periods
  let rs := List.zipWith FV.div gain loss
  rs.map fun r => FV.sub (FV.num 100) (FV.div (FV.num 100) (FV.add (FV.num 1) r))

/-- The analysed table that the handler stores in
`st.session_state.data`. -/
structure AnalyzedData where
  date : List Int
  close : List FV
  volume : List Int
  maShort : List FV
  maLong : List FV
  rsi : List FV
  deriving DecidableEq, Repr

/-- Outcome of one press of the Start Analysis button when the fetch
itself succeeded: either the no-data error message, or the analysed
table. -/
inductive AnalysisOutcome where
  | noDataError : AnalysisOutcome
  | analyzed : AnalyzedData → AnalysisOutcome
  deriving DecidableEq, Repr

/-- Models `data.empty`. -/
def DataFrame.empty (d : DataFrame) : Bool := d.close.isEmpty

/-- Models the Start Analysis handler after a successful fetch: on an
empty table it shows the no-data error and computes nothing; otherwise
it adds the `MA_Short`, `MA_Long` and `RSI` columns and stores the
result. -/
def startAnalysis (data : DataFrame) (maShort maLong : ℕ) : AnalysisOutcome :=
  if data.empty then .noDataError
  else .analyzed
    { date := data.date
      close := data.close
      volume := data.volume
      maShort := rolling_mean data.close maShort
      maLong := rolling_mean data.close maLong
      rsi := calculate_rsi data 14 }

/-- Trend label shown in the dashboard. -/
inductive Trend where
  | rise : Trend
  | drop : Trend
  deriving DecidableEq, Repr

/-- Models `"Rise" if ma_short_value > ma_long_value else "Drop"`. -/
def classify_trend (maShortValue maLongValue : FV) : Trend :=
  if FV.lt maLongValue maShortValue then .rise else .drop

/-- RSI status label shown in the dashboard. -/
inductive RsiStatus where
  | overbought : RsiStatus
  | oversold : RsiStatus
  | normal : RsiStatus
  deriving DecidableEq, Repr

/-- Models
`"Overbought" if latest_rsi > 70 else ("Oversold" if latest_rsi < 30 else "Normal")`. -/
def classify_rsi_status (latestRsi : FV) : RsiStatus :=
  if FV.lt (FV.num 70) latestRsi then .overbought
  else if FV.lt latestRsi (FV.num 30) then .oversold
  else .normal

/-- Models `.iloc[-1]` on a nonempty column. -/
def lastValue (xs : List FV) : FV := xs.getLastD FV.nan

/-! ## Supporting lemmas -/

/-- `getD` of an in-bounds index is the corresponding element. -/
theorem getD_of_lt {α : Type} (l : List α) (d : α) (i : ℕ) (h : i < l.length) :
    l.getD i d = l[i] := by
  simp [List.getD_eq_getElem?_getD, List.getElem?_eq_getElem h]

/-- `getD` over a mapped range evaluates the function. -/
theorem getD_range_map {α : Type} (f : ℕ → α) (d : α) (n i : ℕ) (h : i < n) :
    ((List.range n).map f).getD i d = f i := by
  rw [getD_of_lt _ _ _ (by simpa using h)]
  simp

theorem length_diff (xs : List FV) : (diff xs).length = xs.length := by
  simp [diff]

theorem length_seriesWhere (xs : List FV) (cond : FV → Bool) (other : FV) :
    (seriesWhere xs cond other).length = xs.length := by
  simp [seriesWhere]

theorem length_rolling_mean (xs : List FV) (p : ℕ) :
    (rolling_mean xs p).length = xs.length := by
  simp [rolling_mean]

theorem length_rsi_gain (close : List FV) (p : ℕ) :
    (rsi_gain close p).length = close.length := by
  simp [rsi_gain, length_rolling_mean, length_seriesWhere, length_diff]

theorem length_rsi_loss (close : List FV) (p : ℕ) :
    (rsi_loss close p).length = close.length := by
  simp [rsi_loss, length_rolling_mean, length_seriesWhere, length_diff]

theorem length_calculate_rsi (df : DataFrame) (p : ℕ) :
    (calculate_rsi df p).length = df.close.length := by
  simp [calculate_rsi, List.length_zipWith, length_rsi_gain, length_rsi_loss]

/-- Folding `FV.add` over finite values sums them. -/
theorem foldr_add_map_num (l : List ℚ) :
    (l.map FV.num).foldr FV.add (FV.num 0) = FV.num l.sum := by
  induction l with
  | nil => simp
  | cons a l ih => simp [ih, FV.add]

/-- A contiguous slice of a list, written as a map over its index range. -/
theorem take_drop_eq_range_map {α : Type} (xs : List α) (d : α) (a p : ℕ)
    (h : a + p ≤ xs.length) :
    (xs.drop a).take p = (List.range p).map fun j => xs.getD (a + j) d := by
  apply List.ext_getElem
  · simp
    omega
  · intro i h1 h2
    have hi : i < p := by simpa using h2
    have hx : a + i < xs.length := by omega
    rw [List.getElem_take, List.getElem_drop]
    simp [List.getElem_range, List.getElem?_eq_getElem hx]

/-- Entry of `rolling_mean` while the window is not yet full. -/
theorem rolling_mean_getD_warmup (xs : List FV) (p i : ℕ) (hi : i < xs.length)
    (hw : i + 1 < p) : (rolling_mean xs p).getD i FV.nan = FV.nan := by
  rw [rolling_mean, getD_range_map _ _ _ _ hi]
  simp [hw]

/-- Entry of `rolling_mean` of a finite-valued column once the window is
full: the arithmetic mean of the trailing `p` entries. -/
theorem rolling_mean_getD_full (closes : List ℚ) (p i : ℕ) (hp : 0 < p)
    (hi : i < closes.length) (hw : p ≤ i + 1) :
    (rolling_mean (closes.map FV.num) p).getD i FV.nan =
      FV.num ((((List.range p).map fun j => closes.getD (i + 1 - p + j) 0).sum) / (p : ℚ)) := by
  have hlen : i < (closes.map FV.num).length := by simpa using hi
  rw [rolling_mean, getD_range_map _ _ _ _ hlen, if_neg (by omega)]
  have hslice : ((closes.map FV.num).drop (i + 1 - p)).take p =
      ((closes.drop (i + 1 - p)).take p).map FV.num := by
    rw [List.map_take, List.map_drop]
  rw [hslice, foldr_add_map_num]
  have hbound : (i + 1 - p) + p ≤ closes.length := by omega
  rw [take_drop_eq_range_map closes 0 _ _ hbound]
  have hp' : ((p : ℚ)) ≠ 0 := by
    exact_mod_cast Nat.pos_iff_ne_zero.mp hp
  simp [FV.div, hp']

/-- Entry `i` of `calculate_rsi`, written through the gain and loss
columns. -/
theorem calculate_rsi_getD (df : DataFrame) (p i : ℕ) (hi : i < df.close.length) :
    (calculate_rsi df p).getD i FV.nan =
      FV.sub (FV.num 100) (FV.div (FV.num 100) (FV.add (FV.num 1)
        (FV.div ((rsi_gain df.close p).getD i FV.nan)
          ((rsi_loss df.close p).getD i FV.nan)))) := by
  have hg : i < (rsi_gain df.close p).length := by rw [length_rsi_gain]; exact hi
  have hl : i < (rsi_loss df.close p).length := by rw [length_rsi_loss]; exact hi
  have hz : i < (List.zipWith FV.div (rsi_gain df.close p) (rsi_loss df.close p)).length := by
    rw [List.length_zipWith]; omega
  rw [calculate_rsi]
  rw [getD_of_lt _ _ _ (by simpa [List.length_zipWith, length_rsi_gain, length_rsi_loss] using hz)]
  rw [List.getElem_map, List.getElem_zipWith, getD_of_lt _ _ _ hg, getD_of_lt _ _ _ hl]

/-- Warm-up entry of the gain column. -/
theorem rsi_gain_getD_warmup (close : List FV) (p i : ℕ) (hi : i < close.length)
    (hw : i + 1 < p) : (rsi_gain close p).getD i FV.nan = FV.nan := by
  rw [rsi_gain]
  exact rolling_mean_getD_warmup _ _ _ (by simp [length_seriesWhere, length_diff, hi]) hw

/-- Warm-up entry of the loss column. -/
theorem rsi_loss_getD_warmup (close : List FV) (p i : ℕ) (hi : i < close.length)
    (hw : i + 1 < p) : (rsi_loss close p).getD i FV.nan = FV.nan := by
  rw [rsi_loss]
  exact rolling_mean_getD_warmup _ _ _ (by simp [length_seriesWhere, length_diff, hi]) hw

/-! ## Claim theorems -/

/-- C1: for every price series of length N and every positive window
length p, the rolling mean used for `MA_Short` and `MA_Long` returns a
sequence of length N whose entry i is the no-value marker exactly while
i + 1 < p, and from i = p - 1 on equals the arithmetic mean of the
closes at indices [i - p + 1, i]; the function is total, so no error
occurs for p > N (every index then falls in the no-value case). -/
theorem rolling_mean_is_windowed_mean (closes : List ℚ) (p : ℕ) (hp : 0 < p) :
    (rolling_mean (closes.map FV.num) p).length = closes.length ∧
    (∀ i, i < closes.length → i + 1 < p →
      (rolling_mean (closes.map FV.num) p).getD i FV.nan = FV.nan) ∧
    (∀ i, i < closes.length → p ≤ i + 1 →
      (rolling_mean (closes.map FV.num) p).getD i FV.nan =
        FV.num ((((List.range p).map fun j => closes.getD (i + 1 - p + j) 0).sum) / (p : ℚ))) := by
  refine ⟨by simp [length_rolling_mean], ?_, ?_⟩
  · intro i hi hw
    exact rolling_mean_getD_warmup _ _ _ (by simpa using hi) hw
  · intro i hi hw
    exact rolling_mean_getD_full closes p i hp hi hw

/-- C1 witness: the two-bar series [3, 5] with window 2 has mean 4 at
index 1. -/
theorem rolling_mean_is_windowed_mean_witness :
    (rolling_mean (([3, 5] : List ℚ).map FV.num) 2).getD 1 FV.nan =
      FV.num ((((List.range 2).map fun j => ([3, 5] : List ℚ).getD (1 + 1 - 2 + j) 0).sum)
        / (2 : ℚ)) :=
  (rolling_mean_is_windowed_mean [3, 5] 2 (by norm_num)).2.2 1 (by norm_num) (by norm_num)

/-- C2 (code evaluated at the failing input): on a flat series of 15
equal closes, `calculate_rsi` produces NaN at index 14 — the 0/0 case is
not special-cased to 50. -/
theorem calculate_rsi_flat_yields_nan :
    (calculate_rsi ⟨(List.range 15).map Int.ofNat, List.replicate 15 (FV.num 1),
      List.replicate 15 0⟩ 14).getD 14 FV.nan = FV.nan ∧ FV.nan ≠ FV.num 50 := by
  refine ⟨?_, by simp⟩
  norm_num [calculate_rsi, rsi_gain, rsi_loss, rolling_mean, seriesWhere, diff,
    FV.div, FV.add, FV.sub, FV.neg, FV.lt, List.range_succ, List.replicate]

/-- C3 (code evaluated at the failing input): on a flat series of 16
equal closes, index 15 is past every warm-up reading, yet the RSI entry
there is NaN, not a number in [0, 100]. -/
theorem calculate_rsi_nan_past_warmup :
    (calculate_rsi ⟨(List.range 16).map Int.ofNat, List.replicate 16 (FV.num 5),
      List.replicate 16 0⟩ 14).getD 15 FV.nan = FV.nan := by
  norm_num [calculate_rsi, rsi_gain, rsi_loss, rolling_mean, seriesWhere, diff,
    FV.div, FV.add, FV.sub, FV.neg, FV.lt, List.range_succ, List.replicate]

/-- C4 counterexample: with closes [1, 2] and periods = 2, the code has
a defined RSI value (100) already at index 1 = periods - 1, and the
spurious zero that `where` substitutes for the undefined first diff is
averaged into the gain window (avg_gain = 1/2, not 1). -/
theorem calculate_rsi_defined_before_periods :
    (calculate_rsi ⟨[0, 1], [FV.num 1, FV.num 2], [0, 0]⟩ 2).getD 1 FV.nan = FV.num 100 ∧
    (rsi_gain [FV.num 1, FV.num 2] 2).getD 1 FV.nan = FV.num (1 / 2) := by
  constructor <;>
    norm_num [calculate_rsi, rsi_gain, rsi_loss, rolling_mean, seriesWhere, diff,
      FV.div, FV.add, FV.sub, FV.neg, FV.lt, List.range_succ]

/-- C4 (amended): the RSI output is aligned 1:1 with the input (length
N), and every index with i + 1 < periods is the no-value marker: the
first index that can carry a defined RSI value is periods - 1, because
the undefined first diff enters the windows as a zero gain and a zero
loss rather than being excluded. -/
theorem calculate_rsi_alignment_and_warmup (df : DataFrame) (periods : ℕ) :
    (calculate_rsi df periods).length = df.close.length ∧
    ∀ i, i < df.close.length → i + 1 < periods →
      (calculate_rsi df periods).getD i FV.nan = FV.nan := by
  refine ⟨length_calculate_rsi df periods, ?_⟩
  intro i hi hw
  rw [calculate_rsi_getD df periods i hi, rsi_gain_getD_warmup df.close periods i hi hw,
    rsi_loss_getD_warmup df.close periods i hi hw]
  rfl

/-- C4 witness: a three-bar series with periods = 14 has the no-value
marker at index 1. -/
theorem calculate_rsi_alignment_and_warmup_witness :
    (calculate_rsi ⟨[0, 1, 2], [FV.num 1, FV.num 2, FV.num 3], [7, 7, 7]⟩ 14).getD 1 FV.nan
      = FV.nan :=
  (calculate_rsi_alignment_and_warmup ⟨[0, 1, 2], [FV.num 1, FV.num 2, FV.num 3], [7, 7, 7]⟩
    14).2 1 (by norm_num) (by norm_num)

/-- C5: whenever the averaged loss at index i is (finite) zero and the
averaged gain is a finite positive number, the RSI entry is exactly 100:
the division by zero yields the model's infinity and the final formula
collapses it to 100, with no infinite or NaN value in the output. -/
theorem calculate_rsi_hundred_of_zero_loss (df : DataFrame) (p i : ℕ) (g : ℚ)
    (hi : i < df.close.length) (hgpos : 0 < g)
    (hg : (rsi_gain df.close p).getD i FV.nan = FV.num g)
    (hl : (rsi_loss df.close p).getD i FV.nan = FV.num 0) :
    (calculate_rsi df p).getD i FV.nan = FV.num 100 := by
  rw [calculate_rsi_getD df p i hi, hg, hl]
  have h1 : FV.div (FV.num g) (FV.num 0) = FV.pinf := by
    simp [FV.div, hgpos]
  rw [h1]
  norm_num [FV.add, FV.div, FV.sub, FV.neg]

/-- C5 witness: on the strictly increasing two-bar series [1, 2] with
periods = 1, index 1 has avg_gain = 1, avg_loss = 0 and RSI exactly
100. -/
theorem calculate_rsi_hundred_of_zero_loss_witness :
    (calculate_rsi ⟨[0, 1], [FV.num 1, FV.num 2], [0, 0]⟩ 1).getD 1 FV.nan = FV.num 100 :=
  calculate_rsi_hundred_of_zero_loss ⟨[0, 1], [FV.num 1, FV.num 2], [0, 0]⟩ 1 1 1
    (by norm_num) (by norm_num)
    (by norm_num [rsi_gain, rolling_mean, seriesWhere, diff, FV.div, FV.add, FV.sub,
      FV.neg, FV.lt, List.range_succ])
    (by norm_num [rsi_loss, rolling_mean, seriesWhere, diff, FV.div, FV.add, FV.sub,
      FV.neg, FV.lt, List.range_succ])

/-- C6 (code evaluated at the failing input): on a one-bar series the
stored latest MA and RSI values are all NaN, the handler still produces
an analysed table (no precondition signal exists), and the
classification expressions return the default labels Drop and Normal on
NaN input instead of refusing. -/
theorem classification_defaults_on_missing_warmup :
    startAnalysis ⟨[0], [FV.num 100], [1000]⟩ 20 50 ≠ AnalysisOutcome.noDataError ∧
    lastValue (rolling_mean [FV.num 100] 20) = FV.nan ∧
    lastValue (rolling_mean [FV.num 100] 50) = FV.nan ∧
    lastValue (calculate_rsi ⟨[0], [FV.num 100], [1000]⟩ 14) = FV.nan ∧
    classify_trend FV.nan FV.nan = Trend.drop ∧
    classify_rsi_status FV.nan = RsiStatus.normal := by
  refine ⟨?_, ?_, ?_, ?_, rfl, rfl⟩
  · simp [startAnalysis, DataFrame.empty]
  · norm_num [lastValue, rolling_mean, List.range_succ]
  · norm_num [lastValue, rolling_mean, List.range_succ]
  · norm_num [lastValue, calculate_rsi, rsi_gain, rsi_loss, rolling_mean, seriesWhere,
      diff, FV.div, FV.add, FV.sub, FV.neg, FV.lt, List.range_succ]

/-- C7: on finite latest values the trend classification is Rise
exactly when the short MA strictly exceeds the long MA and Drop
otherwise; in particular equal values (10 and 10) classify as Drop. -/
theorem classify_trend_spec (a b : ℚ) :
    (classify_trend (FV.num a) (FV.num b) = Trend.rise ↔ b < a) ∧
    (classify_trend (FV.num a) (FV.num b) = Trend.drop ↔ a ≤ b) ∧
    classify_trend (FV.num 10) (FV.num 10) = Trend.drop := by
  refine ⟨?_, ?_, by norm_num [classify_trend, FV.lt]⟩
  · by_cases h : b < a <;> simp [classify_trend, FV.lt, h]
  · by_cases h : b < a
    · simp [classify_trend, FV.lt, h, not_le.mpr h]
    · simp [classify_trend, FV.lt, h, not_lt.mp h]

/-- C8: on a finite latest RSI value the status is Overbought exactly
when rsi > 70, Oversold exactly when rsi < 30 and Normal otherwise; the
boundary values 70 and 30 classify as Normal. -/
theorem classify_rsi_status_spec (r : ℚ) :
    (classify_rsi_status (FV.num r) = RsiStatus.overbought ↔ 70 < r) ∧
    (classify_rsi_status (FV.num r) = RsiStatus.oversold ↔ r < 30) ∧
    (classify_rsi_status (FV.num r) = RsiStatus.normal ↔ 30 ≤ r ∧ r ≤ 70) ∧
    classify_rsi_status (FV.num 70) = RsiStatus.normal ∧
    classify_rsi_status (FV.num 30) = RsiStatus.normal := by
  refine ⟨?_, ?_, ?_, by norm_num [classify_rsi_status, FV.lt],
    by norm_num [classify_rsi_status, FV.lt]⟩
  · by_cases h : 70 < r
    · simp [classify_rsi_status, FV.lt, h]
    · by_cases h2 : r < 30 <;> simp [classify_rsi_status, FV.lt, h, h2]
  · by_cases h : 70 < r
    · have h30 : ¬r < 30 := by linarith
      simp [classify_rsi_status, FV.lt, h, h30]
    · by_cases h2 : r < 30 <;> simp [classify_rsi_status, FV.lt, h, h2]
  · by_cases h : 70 < r
    · simp [classify_rsi_status, FV.lt, h, not_le.mpr h]
    · by_cases h2 : r < 30
      · simp [classify_rsi_status, FV.lt, h, h2, not_le.mpr h2]
      · simp [classify_rsi_status, FV.lt, h, h2, not_lt.mp h, not_lt.mp h2]

/-- C9: the Start Analysis handler reports the no-data error exactly
when the fetched table is empty, and in that case the outcome carries no
analysed series at all — indicator computation happens only in the
nonempty branch. -/
theorem startAnalysis_noData_iff (df : DataFrame) (s l : ℕ) :
    startAnalysis df s l = AnalysisOutcome.noDataError ↔ df.close = [] := by
  cases h : df.close <;> simp [startAnalysis, DataFrame.empty, h]

/-- C10: the RSI computation reads only the Close column: two tables
agreeing on Close give identical outputs whatever their Date and Volume
columns hold (and the computation is a pure function, so two runs on the
same input agree definitionally). -/
theorem calculate_rsi_depends_only_on_close (d1 d2 : DataFrame) (p : ℕ)
    (h : d1.close = d2.close) : calculate_rsi d1 p = calculate_rsi d2 p := by
  simp [calculate_rsi, h]

/-- C10 witness: two one-bar tables with different dates and volumes but
the same close give the same RSI column. -/
theorem calculate_rsi_depends_only_on_close_witness :
    calculate_rsi ⟨[0], [FV.num 1], [5]⟩ 14 = calculate_rsi ⟨[9], [FV.num 1], [7]⟩ 14 :=
  calculate_rsi_depends_only_on_close ⟨[0], [FV.num 1], [5]⟩ ⟨[9], [FV.num 1], [7]⟩ 14 rfl
